import Mathlib

/-!
Shallow embedding of the Sensor-Control-Modules drivers: the Vaisala CO2
probe driver (`internal/vaisala/vaisala.go`), the Kurz flow-meter driver
(`internal/kurz/kurz.go`) and the Polar heart-rate driver (`polar` package).
Serial/radio I/O is modelled by explicit inputs (the outcome of each write
and each line read) together with an explicit event trace; `float64` values
are modelled as exact rationals.
-/

/-! ### Models of the Go standard-library string helpers -/

/-- Model of `unicode.IsSpace` restricted to the ASCII space characters. -/
def goIsSpace (c : Char) : Bool :=
  c = ' ' || c = '\t' || c = '\n' || c = '\x0b' || c = '\x0c' || c = '\r'

/-- Accumulating worker for `goFields` (Go `strings.Fields`). -/
def goFieldsAux : List Char → List Char → List (List Char)
  | [], acc => if acc.isEmpty then [] else [acc.reverse]
  | c :: rest, acc =>
    if goIsSpace c then
      if acc.isEmpty then goFieldsAux rest [] else acc.reverse :: goFieldsAux rest []
    else goFieldsAux rest (c :: acc)

/-- Model of Go `strings.Fields`: split around runs of whitespace. -/
def goFields (s : String) : List String :=
  (goFieldsAux s.toList []).map List.asString

/-- Worker for `goSplitChar`. -/
def goSplitCharAux (sep : Char) : List Char → List Char → List (List Char)
  | [], acc => [acc.reverse]
  | c :: rest, acc =>
    if c = sep then acc.reverse :: goSplitCharAux sep rest []
    else goSplitCharAux sep rest (c :: acc)

/-- Model of Go `strings.Split` with a one-character separator. -/
def goSplitChar (s : String) (sep : Char) : List String :=
  (goSplitCharAux sep s.toList []).map List.asString

/-- Model of Go `strings.TrimSpace` (ASCII whitespace). -/
def goTrimSpace (s : String) : String :=
  ((s.toList.dropWhile goIsSpace).reverse.dropWhile goIsSpace).reverse.asString

/-- Model of Go `strings.Contains` with a one-character needle. -/
def goContainsChar (s : String) (c : Char) : Bool :=
  s.toList.contains c

/-- Numeric value of a list of decimal digits. -/
def digitsVal (l : List Char) : Nat :=
  l.foldl (fun acc c => 10 * acc + (c.toNat - '0'.toNat)) 0

/-- Syntactic layer of the `strconv.ParseFloat` model: recognise plain
decimal notation (optional sign, integer digits, optional fractional part)
and return `(negative, integer digits value, fraction digits value,
number of fraction digits)`.  Tokens outside this grammar (exponents, hex,
infinities and any non-numeric text) are rejected. -/
def parseDecimal? (s : String) : Option (Bool × Nat × Nat × Nat) :=
  match s.toList with
  | [] => none
  | cs =>
    let neg := cs.head? = some '-'
    let rest := if cs.head? = some '-' || cs.head? = some '+' then cs.tail else cs
    let intPart := rest.takeWhile Char.isDigit
    let rest2 := rest.dropWhile Char.isDigit
    match rest2 with
    | [] =>
      if intPart.isEmpty then none else some (neg, digitsVal intPart, 0, 0)
    | '.' :: frac =>
      let fracDigits := frac.takeWhile Char.isDigit
      let rest3 := frac.dropWhile Char.isDigit
      if ¬ rest3.isEmpty then none
      else if intPart.isEmpty && fracDigits.isEmpty then none
      else some (neg, digitsVal intPart, digitsVal fracDigits, fracDigits.length)
    | _ => none

/-- Exact rational value of a parsed decimal. -/
def ratOfDecimal : Bool × Nat × Nat × Nat → ℚ
  | (neg, intVal, fracVal, fracLen) =>
    (if neg then -1 else 1) * ((intVal : ℚ) + (fracVal : ℚ) / (10 : ℚ) ^ fracLen)

/-- Model of Go `strconv.ParseFloat`: the exact rational value of a plain
decimal token, `none` on any other input. -/
def parseFloat? (s : String) : Option ℚ :=
  (parseDecimal? s).map ratOfDecimal

/-- Model of Go `fmt.Sprintf` for a template containing one `%s` verb:
substitute `arg` for the first `%s` occurrence. -/
def sprintfSAux (arg : List Char) : List Char → List Char
  | [] => []
  | '%' :: 's' :: rest => arg ++ rest
  | c :: rest => c :: sprintfSAux arg rest

/-- The substitution `sprintfS fmtStr arg` replaces the `%s` verb of
`fmtStr` with `arg`. -/
def sprintfS (fmtStr arg : String) : String :=
  (sprintfSAux arg.toList fmtStr.toList).asString

/-! ### Error taxonomy and I/O event traces

Errors mirror the `fmt.Errorf` sites of the Go code, grouped by the spec's
taxonomy.  Each driver operation is modelled as a pure function of the
outcomes the serial layer would produce (`writeOk : Bool` for a
`serialConn.Write` call, `Option String` for a `bufio.Reader.ReadString`
call) and additionally returns the list of physical I/O actions it
performed, in order. -/

inductive SensorError where
  | connectionError (msg : String)
  | protocolError (msg : String)
  | notFound (msg : String)
deriving DecidableEq, Repr

inductive IOEvent where
  | lockAcquire
  | lockRelease
  | write (payload : String)
  | read (result : Option String)
deriving DecidableEq, Repr

/-! ### `writeCommand` (vaisala.go lines 184-190, kurz.go lines 169-175)

The Vaisala driver writes `[]byte(command + "\r\n")`; the Kurz driver
writes `[]byte(command)` with no terminator.  Both return a wrapped error
exactly when the underlying `Write` fails. -/

/-- Embedding of `(*VaisalaSensor).writeCommand`: the bytes put on the wire
and the result, given whether the underlying `Write` succeeds. -/
def vaisalaWriteCommand (command : String) (writeOk : Bool) :
    Except SensorError Unit × List IOEvent :=
  ((if writeOk then Except.ok ()
    else Except.error (SensorError.connectionError "failed to write command")),
   [IOEvent.write (command ++ "\r\n")])

/-- Embedding of `(*KurzSensor).writeCommand`: the command bytes are written
verbatim, with no terminator appended. -/
def kurzWriteCommand (command : String) (writeOk : Bool) :
    Except SensorError Unit × List IOEvent :=
  ((if writeOk then Except.ok ()
    else Except.error (SensorError.connectionError "failed to write command")),
   [IOEvent.write command])

/-! ### The Kurz sensor session (kurz.go) -/

/-- The session state of `KurzSensor` relevant to reading: the constant
flow-rate override captured at construction. -/
structure KurzSensor where
  constantFlowRateSCFM : ℚ
deriving DecidableEq, Repr

/-- Embedding of `newKurzSensor`'s override initialisation: the
`CONSTANT_FLOW_RATE_SCFM` environment value (Go `os.Getenv` returns `""`
when unset) is parsed as a float; on empty value or parse failure the
override stays `0.0`. -/
def newKurzSensor (envVal : String) : KurzSensor :=
  { constantFlowRateSCFM :=
      if envVal ≠ "" then
        match parseFloat? envVal with
        | some rate => rate
        | none => 0
      else 0 }

/-- Embedding of `(*KurzSensor).readFlowRate` (kurz.go lines 177-207).
When the override is non-zero the function returns it before touching the
lock or the port.  Otherwise it locks, writes the request `"x"` via the
Kurz `writeCommand`, reads one line, unlocks on return (deferred), and
parses the fourth whitespace field of the response as a float. -/
def readFlowRate (ks : KurzSensor) (writeOk : Bool) (readResult : Option String) :
    Except SensorError ℚ × List IOEvent :=
  if ks.constantFlowRateSCFM ≠ 0 then
    (Except.ok ks.constantFlowRateSCFM, [])
  else
    let wr := kurzWriteCommand "x" writeOk
    let ev0 := IOEvent.lockAcquire :: wr.2
    match wr.1 with
    | Except.error e => (Except.error e, ev0 ++ [IOEvent.lockRelease])
    | Except.ok _ =>
      match readResult with
      | none =>
        (Except.error (SensorError.connectionError "failed to read response"),
         ev0 ++ [IOEvent.read none, IOEvent.lockRelease])
      | some response =>
        let evs := ev0 ++ [IOEvent.read (some response), IOEvent.lockRelease]
        let parts := goFields response
        if parts.length < 4 then
          (Except.error (SensorError.protocolError "invalid response format"), evs)
        else
          match parseFloat? (parts.getD 3 "") with
          | none =>
            (Except.error (SensorError.protocolError "failed to parse flow rate"), evs)
          | some flowRate => (Except.ok flowRate, evs)

/-! ### The Vaisala CO2 read (vaisala.go lines 192-224) -/

/-- Embedding of `(*VaisalaSensor).readCO2`: lock, write the request
`"send"` via the Vaisala `writeCommand`, read one line, unlock on return
(deferred), split the response on `'='`, require two segments, trim the
second, take its first whitespace field and parse it as a float. -/
def readCO2 (writeOk : Bool) (readResult : Option String) :
    Except SensorError ℚ × List IOEvent :=
  let wr := vaisalaWriteCommand "send" writeOk
  let ev0 := IOEvent.lockAcquire :: wr.2
  match wr.1 with
  | Except.error e => (Except.error e, ev0 ++ [IOEvent.lockRelease])
  | Except.ok _ =>
    match readResult with
    | none =>
      (Except.error (SensorError.connectionError "failed to read response"),
       ev0 ++ [IOEvent.read none, IOEvent.lockRelease])
    | some response =>
      let evs := ev0 ++ [IOEvent.read (some response), IOEvent.lockRelease]
      let parts := goSplitChar response '='
      if parts.length < 2 then
        (Except.error (SensorError.protocolError "invalid response format"), evs)
      else
        let co2Value := goTrimSpace (parts.getD 1 "")
        let co2Parts := goFields co2Value
        if co2Parts.length < 1 then
          (Except.error
            (SensorError.protocolError "failed to parse CO2 value from response"), evs)
        else
          match parseFloat? (co2Parts.getD 0 "") with
          | none =>
            (Except.error (SensorError.protocolError "failed to parse CO2 value"), evs)
          | some co2 => (Except.ok co2, evs)

/-! ### Port discovery (vaisala.go lines 74-110, kurz.go lines 68-101)

Both `searchPorts` methods are textually identical after the regex match:
the `regexp.FindStringSubmatch` call against the `ls -l /dev/serial/by-id`
output is modelled by its result, `none` when the vendor regex does not
match and `some m` when `m` is the first match.  Both drivers use the port
template `"/dev/%s"`. -/

/-- Embedding of the common `searchPorts` logic after the regex match. -/
def searchPorts (firstMatch : Option String) : Except SensorError String :=
  match firstMatch with
  | none => Except.error (SensorError.notFound "sensor not found")
  | some m =>
    let parts := goFields m
    if parts.length > 0 then
      let sensorPath := parts.getLastD ""
      if goContainsChar sensorPath '/' then
        let lastPart := (goSplitChar sensorPath '/').getLastD ""
        Except.ok (sprintfS "/dev/%s" lastPart)
      else Except.error (SensorError.notFound "sensor not found")
    else Except.error (SensorError.notFound "sensor not found")

/-! ### Identification handshake (vaisala.go lines 154-182, kurz.go lines 139-167)

`collectProbeInfo` / `collectSensorInfo` write the query `"?"`, read one
line, and apply three `regexp.FindStringSubmatch` calls.  The Go regexp
contract is that `FindStringSubmatch` returns either the empty slice (no
match) or a slice of length `1 + number of capture groups` holding the
whole match followed by the captured groups; the three calls are modelled
by oracle functions from the response line to that slice.  A field is
assigned `submatch[1]` only when the slice has length `> 1`. -/

structure SensorInfo where
  sensorModel : String := ""
  sensorSerialNumber : String := ""
  sensorSoftwareVersion : String := ""
deriving DecidableEq, Repr

/-- Embedding of the common `collect*Info` logic, parameterised by the
three `FindStringSubmatch` oracles and the write/read outcomes; the write
goes through the given `writeCommand` embedding. -/
def collectInfo
    (writeCommand : String → Bool → Except SensorError Unit × List IOEvent)
    (modelSub snumSub swSub : String → List String)
    (writeOk : Bool) (readResult : Option String)
    (info : SensorInfo) : Except SensorError SensorInfo :=
  match (writeCommand "?" writeOk).1 with
  | Except.error e => Except.error e
  | Except.ok _ =>
    match readResult with
    | none =>
      Except.error (SensorError.connectionError "failed to read info response")
    | some response =>
      let sensorModel := modelSub response
      let info1 :=
        if sensorModel.length > 1 then
          { info with sensorModel := sensorModel.getD 1 "" }
        else info
      let sensorSerialNumber := snumSub response
      let info2 :=
        if sensorSerialNumber.length > 1 then
          { info1 with sensorSerialNumber := sensorSerialNumber.getD 1 "" }
        else info1
      let sensorSoftwareVersion := swSub response
      let info3 :=
        if sensorSoftwareVersion.length > 1 then
          { info2 with sensorSoftwareVersion := sensorSoftwareVersion.getD 1 "" }
        else info2
      Except.ok info3

/-! ### The Kurz identification patterns (kurz.go lines 35-37) -/

def kurzRegexSensorModel : String := "Device\\s*:\\s*\\w*"

def kurzRegexSensorSerialNumber : String := "SNUM\\s*:\\s*\\w*"

def kurzRegexSensorSoftwareVersion : String := "SW version\\s*:\\s*\\d.\\d.\\d"

/-- Number of capturing groups of a Go regular expression, read off its
text: a `(` that is neither escaped by a backslash nor immediately
followed by `?` opens a capturing group. -/
def countCaptures : List Char → Nat
  | [] => 0
  | '\\' :: _ :: rest => countCaptures rest
  | '(' :: '?' :: rest => countCaptures rest
  | '(' :: rest => 1 + countCaptures rest
  | _ :: rest => countCaptures rest

/-- Number of capturing groups of a pattern string. -/
def numCaptureGroups (pattern : String) : Nat :=
  countCaptures pattern.toList

/-- The Go regexp contract for `FindStringSubmatch` against a given
pattern: the returned slice is empty (no match) or has exactly
`1 + numCaptureGroups pattern` entries. -/
def SubmatchOracle (pattern : String) (sub : String → List String) : Prop :=
  ∀ s, (sub s).length = 0 ∨ (sub s).length = 1 + numCaptureGroups pattern

/-! ### The Polar heart-rate notification callback (polar package)

`startPolarSensor` installs a notification callback on the heart-rate
characteristic.  Bytes are modelled as natural numbers below 256; a
published value on `heartRateCh` or `rrIntervalCh` is one `PolarEvent`. -/

inductive PolarEvent where
  | publishHeartRate (hr : Nat)
  | publishRR (rr : Option (List Nat))
deriving DecidableEq, Repr

/-- Value of `binary.LittleEndian.Uint16` on two bytes. -/
def leUint16 (lo hi : Nat) : Nat := lo + 256 * hi

/-- Embedding of the `for i := 2; i < len(buf); i += 2` loop of the
callback: starting at index `i`, append the little-endian value of bytes
`i, i+1` whenever `i+1` is also in bounds. -/
def rrLoop (buf : List Nat) (i : Nat) (acc : List Nat) : List Nat :=
  if h : i < buf.length then
    let acc' :=
      if i + 1 < buf.length then
        acc ++ [leUint16 (buf.getD i 0) (buf.getD (i + 1) 0)]
      else acc
    rrLoop buf (i + 2) acc'
  else acc
termination_by buf.length - i
decreasing_by omega

/-- Embedding of the notification callback body installed by
`startPolarSensor` (part_000 lines 52-71): the published events, in order,
for one notification buffer. -/
def polarCallback (buf : List Nat) : List PolarEvent :=
  if buf.length > 1 then
    let heartRate := buf.getD 1 0
    let flags := buf.getD 0 0
    PolarEvent.publishHeartRate heartRate ::
      (if Nat.land flags 0x10 ≠ 0 ∧ buf.length ≥ 4 then
        [PolarEvent.publishRR (some (rrLoop buf 2 []))]
      else
        [PolarEvent.publishRR none])
  else []

/-- Spec-side description of the RR decoding: the little-endian 16-bit
values taken pairwise, any trailing odd byte dropped. -/
def pairwiseLE : List Nat → List Nat
  | lo :: hi :: rest => leUint16 lo hi :: pairwiseLE rest
  | _ => []

/-! ### The polling loop (vaisala.go lines 226-236, kurz.go lines 209-219)

`startVaisalaSensor` / `startKurzSensor` are identical infinite loops:
call the read operation; on error, log, sleep one second and `continue`;
on success, send the value on the measurement channel.  A run of the loop
is modelled by the finite list of outcomes of the successive read calls;
the state space of the loop has the single non-terminal state `polling`
(the loop body has no `return` or `break`). -/

inductive PollEvent where
  | readAttempt
  | logError (e : SensorError)
  | sleepSeconds (n : Nat)
  | publish (v : ℚ)
deriving DecidableEq

inductive LoopState where
  | polling
deriving DecidableEq, Repr

/-- One iteration of the polling loop body: the successor state and the
events of that iteration. -/
def pollIteration (outcome : Except SensorError ℚ) : LoopState × List PollEvent :=
  match outcome with
  | Except.error e =>
    (LoopState.polling, [PollEvent.readAttempt, PollEvent.logError e,
      PollEvent.sleepSeconds 1])
  | Except.ok v =>
    (LoopState.polling, [PollEvent.readAttempt, PollEvent.publish v])

/-- The trace of the polling loop over a finite list of read outcomes. -/
def pollRun : List (Except SensorError ℚ) → List PollEvent
  | [] => []
  | o :: rest => (pollIteration o).2 ++ pollRun rest

/-- The loop state after a finite list of read outcomes. -/
def pollState : List (Except SensorError ℚ) → LoopState
  | [] => LoopState.polling
  | _ :: rest => pollState rest

/-- Number of read attempts in a polling trace. -/
def countReadAttempts : List PollEvent → Nat
  | [] => 0
  | PollEvent.readAttempt :: rest => 1 + countReadAttempts rest
  | _ :: rest => countReadAttempts rest

/-! ### Lock serialisation (vaisala.go lines 192-194, kurz.go lines 182-183)

One read transaction under `lock.Lock() ... defer lock.Unlock()` is:
acquire the mutex, write the request, consume the response, release.  Two
concurrent read calls against one session are modelled as two such
threads; a schedule says which thread takes the next step, and a thread
whose `Lock()` is blocked simply makes no progress on its step.  Program
counters: 0 = before `Lock`, 1 = lock held / about to write the request,
2 = request written / about to consume the response, 3 = response
consumed / about to unlock, 4 = done. -/

structure MutexConfig where
  pcA : Fin 5
  pcB : Fin 5
  owner : Option Bool
deriving DecidableEq, Repr, Fintype

/-- Program counter of thread `t` (`false` = A, `true` = B). -/
def pcOf (t : Bool) (c : MutexConfig) : Fin 5 :=
  if t then c.pcB else c.pcA

/-- Update the program counter of thread `t`. -/
def setPc (t : Bool) (v : Fin 5) (c : MutexConfig) : MutexConfig :=
  if t then { c with pcB := v } else { c with pcA := v }

/-- A request write or response consumption on the shared line,
labelled by the thread performing it. -/
inductive TxEvent where
  | request (t : Bool)
  | response (t : Bool)
deriving DecidableEq, Repr

/-- One scheduled step of thread `t` under Go `sync.Mutex` semantics. -/
def threadStep (t : Bool) (c : MutexConfig) : MutexConfig × List TxEvent :=
  match (pcOf t c : Fin 5) with
  | 0 =>
    match c.owner with
    | none => (setPc t 1 { c with owner := some t }, [])
    | some _ => (c, [])
  | 1 => (setPc t 2 c, [TxEvent.request t])
  | 2 => (setPc t 3 c, [TxEvent.response t])
  | 3 => ({ setPc t 4 c with owner := none }, [])
  | 4 => (c, [])

/-- Run the two threads under a schedule (the list of thread choices),
collecting the shared-line events in order. -/
def runSched : List Bool → MutexConfig → MutexConfig × List TxEvent
  | [], c => (c, [])
  | t :: rest, c =>
    let step := threadStep t c
    let tail := runSched rest step.1
    (tail.1, step.2 ++ tail.2)

/-- Scanner for serialised transactions: consume the event list keeping
track of the thread whose transaction is open (request written, response
not yet consumed); fail on a request while another transaction is open or
on a response that does not belong to the open transaction. -/
def scanTx : Option Bool → List TxEvent → Option (Option Bool)
  | o, [] => some o
  | none, TxEvent.request t :: rest => scanTx (some t) rest
  | some t, TxEvent.response u :: rest =>
    if t = u then scanTx none rest else none
  | _, _ :: _ => none

/-- An event list is serialised when the scanner accepts it from the
no-open-transaction state: no request is ever written while another
transaction's response is still outstanding. -/
def serialized (evs : List TxEvent) : Bool :=
  (scanTx none evs).isSome

/-- The initial configuration: both threads before `Lock()`, mutex free. -/
def initialMutexConfig : MutexConfig :=
  { pcA := 0, pcB := 0, owner := none }

/-- Mutual-exclusion invariant of the two-thread transaction model: a
thread whose program counter is strictly inside the critical section
(between a successful `Lock` and the `Unlock`) is the mutex owner. -/
def MutexInv (c : MutexConfig) : Prop :=
  (1 ≤ c.pcA.val ∧ c.pcA.val ≤ 3 → c.owner = some false) ∧
  (1 ≤ c.pcB.val ∧ c.pcB.val ≤ 3 → c.owner = some true)

instance (c : MutexConfig) : Decidable (MutexInv c) := by
  unfold MutexInv; infer_instance

/-- The thread whose transaction is currently open (request written,
response not yet consumed) in a configuration. -/
def openTx (c : MutexConfig) : Option Bool :=
  if c.pcA.val = 2 then some false
  else if c.pcB.val = 2 then some true
  else none

/-! ### Helper lemmas -/

theorem scanTx_nil (o : Option Bool) : scanTx o [] = some o := by
  cases o <;> rfl

theorem scanTx_append (o : Option Bool) (xs ys : List TxEvent) :
    scanTx o (xs ++ ys) = (scanTx o xs).bind fun o' => scanTx o' ys := by
  induction xs generalizing o with
  | nil => simp [scanTx_nil]
  | cons x rest ih =>
    cases o with
    | none =>
      cases x with
      | request t => simp [scanTx, ih]
      | response t => simp [scanTx]
    | some w =>
      cases x with
      | request t => simp [scanTx]
      | response t =>
        by_cases hw : w = t
        · simp [scanTx, hw, ih]
        · simp [scanTx, hw]

/-- One scheduled step preserves the mutual-exclusion invariant, and its
events carry the serialisation scanner from the open transaction of the
old configuration to that of the new one. -/
theorem mutexStep_ok : ∀ (c : MutexConfig) (t : Bool), MutexInv c →
    MutexInv (threadStep t c).1 ∧
    scanTx (openTx c) (threadStep t c).2 = some (openTx (threadStep t c).1) := by
  decide

theorem runSched_scan (sched : List Bool) :
    ∀ c, MutexInv c →
      scanTx (openTx c) (runSched sched c).2 =
        some (openTx (runSched sched c).1) := by
  induction sched with
  | nil => intro c _; exact scanTx_nil _
  | cons t rest ih =>
    intro c h
    have hs := mutexStep_ok c t h
    simp only [runSched, scanTx_append, hs.2, Option.bind_some]
    exact ih _ hs.1

/-- The index-based RR loop of the Polar callback computes exactly the
pairwise little-endian decoding of the bytes from its start index on,
with a trailing odd byte dropped. -/
theorem rrLoop_eq (buf : List Nat) : ∀ i acc,
    rrLoop buf i acc = acc ++ pairwiseLE (buf.drop i) := by
  have H : ∀ n i acc, buf.length - i ≤ n →
      rrLoop buf i acc = acc ++ pairwiseLE (buf.drop i) := by
    intro n
    induction n with
    | zero =>
      intro i acc h
      rw [rrLoop, dif_neg (by omega : ¬ i < buf.length),
        List.drop_eq_nil_of_le (by omega)]
      simp [pairwiseLE]
    | succ n ih =>
      intro i acc h
      rw [rrLoop]
      by_cases hi : i < buf.length
      · rw [dif_pos hi]
        by_cases hi1 : i + 1 < buf.length
        · simp only [if_pos hi1]
          rw [ih (i + 2) _ (by omega)]
          have h1 : buf.drop i = buf[i] :: buf.drop (i + 1) :=
            List.drop_eq_getElem_cons hi
          have h2 : buf.drop (i + 1) = buf[i + 1] :: buf.drop (i + 2) :=
            List.drop_eq_getElem_cons hi1
          rw [h1, h2, List.getD_eq_getElem buf 0 hi, List.getD_eq_getElem buf 0 hi1]
          simp [pairwiseLE]
        · simp only [if_neg hi1]
          rw [ih (i + 2) _ (by omega)]
          have h1 : buf.drop i = buf[i] :: buf.drop (i + 1) :=
            List.drop_eq_getElem_cons hi
          rw [show List.drop (i + 1) buf = [] from
            List.drop_eq_nil_of_le (by omega)] at h1
          rw [h1, List.drop_eq_nil_of_le (by omega : buf.length ≤ i + 2)]
          simp [pairwiseLE]
      · rw [dif_neg hi, List.drop_eq_nil_of_le (by omega)]
        simp [pairwiseLE]
  intro i acc
  exact H (buf.length - i) i acc le_rfl

/-- The port template substitution on the fixed template `"/dev/%s"` is
string concatenation after `"/dev/"`. -/
theorem sprintfS_dev (arg : String) : sprintfS "/dev/%s" arg = "/dev/" ++ arg := by
  cases arg with
  | mk data =>
    simp [sprintfS, sprintfSAux, List.asString, String.toList, String.append]
    rfl

theorem pollRun_append (a b : List (Except SensorError ℚ)) :
    pollRun (a ++ b) = pollRun a ++ pollRun b := by
  induction a with
  | nil => rfl
  | cons o rest ih => simp [pollRun, ih]

/-! ### Claim theorems -/

/-- C1, counterexample: the claim fails on the Kurz driver.  For the
command `"x"`, `(*KurzSensor).writeCommand` puts exactly the bytes `"x"`
on the wire, not `"x"` followed by a carriage-return/line-feed
terminator. -/
theorem kurzWriteCommand_no_crlf :
    (kurzWriteCommand "x" true).2 ≠ [IOEvent.write ("x" ++ "\r\n")] := by
  decide

/-- C1, amended: the Vaisala `writeCommand` writes the command bytes with
a carriage-return/line-feed terminator appended, while the Kurz
`writeCommand` writes the command bytes verbatim with no terminator; each
returns an error exactly when the underlying write fails. -/
theorem writeCommand_spec (command : String) (writeOk : Bool) :
    (vaisalaWriteCommand command writeOk).2 =
      [IOEvent.write (command ++ "\r\n")] ∧
    (kurzWriteCommand command writeOk).2 = [IOEvent.write command] ∧
    ((∃ e, (vaisalaWriteCommand command writeOk).1 = Except.error e) ↔
      writeOk = false) ∧
    ((∃ e, (kurzWriteCommand command writeOk).1 = Except.error e) ↔
      writeOk = false) := by
  cases writeOk <;> simp [vaisalaWriteCommand, kurzWriteCommand]

/-- C1 witness: the amended behaviour at the concrete command `"x"`. -/
theorem writeCommand_spec_witness :
    (vaisalaWriteCommand "x" true).2 = [IOEvent.write ("x" ++ "\r\n")] ∧
    (kurzWriteCommand "x" true).2 = [IOEvent.write "x"] ∧
    ((∃ e, (vaisalaWriteCommand "x" true).1 = Except.error e) ↔
      true = false) ∧
    ((∃ e, (kurzWriteCommand "x" true).1 = Except.error e) ↔
      true = false) :=
  writeCommand_spec "x" true

/-- C2: a Kurz session whose configured override is non-zero returns
exactly the override value from every `readFlowRate` call of every call
sequence, with an empty physical I/O trace (no lock acquisition, no
write, no read); and `newKurzSensor` configures exactly the parsed
environment value as the override. -/
theorem readFlowRate_override (ks : KurzSensor)
    (h : ks.constantFlowRateSCFM ≠ 0)
    (calls : List (Bool × Option String)) :
    (calls.map fun io => readFlowRate ks io.1 io.2) =
      calls.map (fun _ => (Except.ok ks.constantFlowRateSCFM,
        ([] : List IOEvent))) ∧
    (∀ envVal rate, parseFloat? envVal = some rate → rate ≠ 0 →
      (newKurzSensor envVal).constantFlowRateSCFM = rate) := by
  constructor
  · have hone : ∀ w r, readFlowRate ks w r =
        (Except.ok ks.constantFlowRateSCFM, ([] : List IOEvent)) := by
      intro w r
      rw [readFlowRate, if_pos h]
    simp only [hone]
  · intro envVal rate hp hr
    by_cases he : envVal = ""
    · rw [he] at hp
      rw [show parseFloat? "" = none from rfl] at hp
      exact Option.noConfusion hp
    · simp [newKurzSensor, he, hp]

/-- C2 witness: a session with override 5 performs no I/O and returns 5
on a concrete two-call sequence. -/
theorem readFlowRate_override_witness :
    ((([(true, some "a b c 1.0"), (false, none)] :
        List (Bool × Option String)).map
          fun io => readFlowRate ⟨5⟩ io.1 io.2) =
      ([(true, some "a b c 1.0"), (false, none)] :
        List (Bool × Option String)).map
          (fun _ => (Except.ok (KurzSensor.mk 5).constantFlowRateSCFM,
            ([] : List IOEvent)))) ∧
    (∀ envVal rate, parseFloat? envVal = some rate → rate ≠ 0 →
      (newKurzSensor envVal).constantFlowRateSCFM = rate) :=
  readFlowRate_override ⟨5⟩ (by simp) [(true, some "a b c 1.0"), (false, none)]

/-- C3: the Polar notification callback publishes nothing for a buffer of
length at most 1; for a longer buffer it publishes exactly two events:
first the heart rate, byte 1, and then the RR publication, which is the
pairwise little-endian decoding of the bytes from byte 2 on (trailing odd
byte dropped) when bit 4 of the flags byte 0 is set and the buffer has at
least 4 bytes, and the explicit absent value (`none`, Go `nil`)
otherwise. -/
theorem polarCallback_spec (buf : List Nat) :
    (buf.length ≤ 1 → polarCallback buf = []) ∧
    (1 < buf.length →
      polarCallback buf =
        [PolarEvent.publishHeartRate (buf.getD 1 0),
         PolarEvent.publishRR
           (if Nat.land (buf.getD 0 0) 0x10 ≠ 0 ∧ 4 ≤ buf.length then
              some (pairwiseLE (buf.drop 2))
            else none)]) := by
  constructor
  · intro h
    rw [polarCallback, if_neg (by omega)]
  · intro h
    rw [polarCallback, if_pos (by omega : buf.length > 1)]
    by_cases hc : Nat.land (buf.getD 0 0) 0x10 ≠ 0 ∧ buf.length ≥ 4
    · simp only [if_pos hc, rrLoop_eq, List.nil_append]
    · simp only [if_neg hc]

/-- C3 witness: the buffer `[flags = 0x10, hr = 72, rrLo = 52, rrHi = 18]`
publishes heart rate 72 and the single RR interval `52 + 256 * 18`. -/
theorem polarCallback_spec_witness :
    polarCallback [16, 72, 52, 18] =
      [PolarEvent.publishHeartRate 72, PolarEvent.publishRR (some [4660])] := by
  have h := (polarCallback_spec [16, 72, 52, 18]).2 (by decide)
  rw [h]
  decide

/-- C4: CO2 parsing splits the response line on `'='`, fails with a
protocol error when fewer than two segments result, otherwise trims
whitespace from the second segment, takes its first whitespace-delimited
token and returns its parsed value, failing with a protocol error when no
token exists or the token is non-numeric; in particular
`"CO2=  412.35 ppm\n"` parses to 412.35. -/
theorem readCO2_spec (response : String) :
    (((goSplitChar response '=').length < 2 →
        (readCO2 true (some response)).1 =
          Except.error (SensorError.protocolError "invalid response format")) ∧
     (2 ≤ (goSplitChar response '=').length →
        (goFields (goTrimSpace ((goSplitChar response '=').getD 1 "")) = [] →
          (readCO2 true (some response)).1 =
            Except.error (SensorError.protocolError
              "failed to parse CO2 value from response")) ∧
        (∀ tok rest,
          goFields (goTrimSpace ((goSplitChar response '=').getD 1 "")) =
            tok :: rest →
          (parseFloat? tok = none →
            (readCO2 true (some response)).1 =
              Except.error
                (SensorError.protocolError "failed to parse CO2 value")) ∧
          (∀ v, parseFloat? tok = some v →
            (readCO2 true (some response)).1 = Except.ok v)))) ∧
    (readCO2 true (some "CO2=  412.35 ppm\n")).1 = Except.ok (412.35 : ℚ) := by
  constructor
  · have hw : (vaisalaWriteCommand "send" true).1 = Except.ok () := rfl
    simp only [readCO2, hw]
    constructor
    · intro hlt
      rw [if_pos hlt]
    · intro hge
      rw [if_neg (show ¬ (goSplitChar response '=').length < 2 by omega)]
      constructor
      · intro hnil
        rw [if_pos (show (goFields (goTrimSpace
          ((goSplitChar response '=').getD 1 ""))).length < 1 by rw [hnil]; simp)]
      · intro tok rest htok
        rw [htok, if_neg (show ¬ (tok :: rest).length < 1 by simp)]
        simp only [List.getD_cons_zero]
        constructor
        · intro hnone
          rw [hnone]
        · intro v hv
          rw [hv]
  · have h1 : (readCO2 true (some "CO2=  412.35 ppm\n")).1 =
        Except.ok (ratOfDecimal (false, 412, 35, 2)) := rfl
    rw [h1]
    norm_num [ratOfDecimal]

/-- C4 witness: the concrete response line of the claim, pushed through
the structural part of the theorem. -/
theorem readCO2_spec_witness :
    (readCO2 true (some "CO2=  412.35 ppm\n")).1 = Except.ok (412.35 : ℚ) := by
  have h := (((readCO2_spec "CO2=  412.35 ppm\n").1.2 (by decide)).2 "412.35"
    ["ppm"] (by decide)).2 (ratOfDecimal (false, 412, 35, 2)) rfl
  rw [h]
  norm_num [ratOfDecimal]

/-- C5: flow-rate parsing splits the whole response line on whitespace and
returns the fourth token parsed as a float; it fails with a protocol error
exactly when there are fewer than four tokens or the fourth token is
non-numeric (for a session whose override is zero, i.e. whose reads do
reach the parser). -/
theorem readFlowRate_parsing (ks : KurzSensor)
    (h0 : ks.constantFlowRateSCFM = 0) (response : String) :
    ((goFields response).length < 4 →
      (readFlowRate ks true (some response)).1 =
        Except.error (SensorError.protocolError "invalid response format")) ∧
    (4 ≤ (goFields response).length →
      (parseFloat? ((goFields response).getD 3 "") = none →
        (readFlowRate ks true (some response)).1 =
          Except.error
            (SensorError.protocolError "failed to parse flow rate")) ∧
      (∀ v, parseFloat? ((goFields response).getD 3 "") = some v →
        (readFlowRate ks true (some response)).1 = Except.ok v)) := by
  have hno : ¬ ks.constantFlowRateSCFM ≠ 0 := by rw [h0]; simp
  have hw : (kurzWriteCommand "x" true).1 = Except.ok () := rfl
  simp only [readFlowRate, if_neg hno, hw]
  constructor
  · intro hlt
    rw [if_pos hlt]
  · intro hge
    rw [if_neg (show ¬ (goFields response).length < 4 by omega)]
    constructor
    · intro hnone
      rw [hnone]
    · intro v hv
      rw [hv]

/-- C5 witness: a four-field response whose fourth field is `12.5`. -/
theorem readFlowRate_parsing_witness :
    (readFlowRate ⟨0⟩ true (some "a b c 12.5\n")).1 = Except.ok (12.5 : ℚ) := by
  have h := ((readFlowRate_parsing ⟨0⟩ rfl "a b c 12.5\n").2 (by decide)).2
    (ratOfDecimal (false, 12, 5, 1)) rfl
  rw [h]
  norm_num [ratOfDecimal]

/-- C6: discovery takes the first match of the vendor regex; with no match
it fails with the not-found error; with a match it splits the matched text
on whitespace and takes the last token: if that token contains a `'/'`
separator the locator is the token's final path segment substituted into
the `"/dev/%s"` port template (i.e. `"/dev/" ++ segment`), and otherwise
discovery fails with the not-found error. -/
theorem searchPorts_spec :
    searchPorts none = Except.error (SensorError.notFound "sensor not found") ∧
    (∀ m, goFields m ≠ [] →
      (goContainsChar ((goFields m).getLastD "") '/' = true →
        searchPorts (some m) =
          Except.ok (sprintfS "/dev/%s"
            ((goSplitChar ((goFields m).getLastD "") '/').getLastD ""))) ∧
      (goContainsChar ((goFields m).getLastD "") '/' = false →
        searchPorts (some m) =
          Except.error (SensorError.notFound "sensor not found"))) ∧
    (∀ arg, sprintfS "/dev/%s" arg = "/dev/" ++ arg) := by
  refine ⟨rfl, ?_, sprintfS_dev⟩
  intro m hm
  simp only [searchPorts]
  rw [if_pos (show (goFields m).length > 0 by
    cases hg : goFields m with
    | nil => exact absurd hg hm
    | cons a l => simp)]
  constructor
  · intro hc
    rw [if_pos hc]
  · intro hc
    rw [if_neg (show ¬ goContainsChar ((goFields m).getLastD "") '/' = true by
      rw [hc]; simp)]

/-- C6 witness: a listing line whose trailing symlink target is
`../../ttyUSB0` resolves to the locator `/dev/ttyUSB0`. -/
theorem searchPorts_spec_witness :
    searchPorts (some "usb-Silicon_Labs_Vaisala -> ../../ttyUSB0") =
      Except.ok "/dev/ttyUSB0" := by
  have h := (searchPorts_spec.2.1 "usb-Silicon_Labs_Vaisala -> ../../ttyUSB0"
    (by decide)).1 (by decide)
  rw [h]
  exact congrArg Except.ok (by decide)

/-! Helper lemmas shared by the handshake claims. -/

theorem collectInfo_error_iff
    (wc : String → Bool → Except SensorError Unit × List IOEvent)
    (hok : (wc "?" true).1 = Except.ok ())
    (herr : ∃ e, (wc "?" false).1 = Except.error e)
    (modelSub snumSub swSub : String → List String)
    (writeOk : Bool) (readResult : Option String) :
    (∃ e, collectInfo wc modelSub snumSub swSub writeOk readResult {} =
        Except.error e) ↔ (writeOk = false ∨ readResult = none) := by
  cases writeOk with
  | false =>
    obtain ⟨e, he⟩ := herr
    simp [collectInfo, he]
  | true =>
    cases readResult with
    | none => simp [collectInfo, hok]
    | some response => simp [collectInfo, hok]

theorem collectInfo_ok_fields
    (wc : String → Bool → Except SensorError Unit × List IOEvent)
    (hok : (wc "?" true).1 = Except.ok ())
    (modelSub snumSub swSub : String → List String) (response : String) :
    collectInfo wc modelSub snumSub swSub true (some response) {} =
      Except.ok
        { sensorModel :=
            if (modelSub response).length > 1 then (modelSub response).getD 1 ""
            else "",
          sensorSerialNumber :=
            if (snumSub response).length > 1 then (snumSub response).getD 1 ""
            else "",
          sensorSoftwareVersion :=
            if (swSub response).length > 1 then (swSub response).getD 1 ""
            else "" } := by
  simp only [collectInfo, hok]
  by_cases h1 : (modelSub response).length > 1 <;>
    by_cases h2 : (snumSub response).length > 1 <;>
      by_cases h3 : (swSub response).length > 1 <;>
        simp [h1, h2, h3]

/-- C7: for every identification response line of either wired driver,
each metadata field is set only when its submatch has a captured group
(slice length greater than 1), non-matching fields keep their empty
default, and the handshake fails exactly when the identification write or
the line read fails at the I/O level — never because a field failed to
extract. -/
theorem collectInfo_spec (modelSub snumSub swSub : String → List String)
    (writeOk : Bool) (readResult : Option String) :
    ((∃ e, collectInfo vaisalaWriteCommand modelSub snumSub swSub writeOk
        readResult {} = Except.error e) ↔
      (writeOk = false ∨ readResult = none)) ∧
    ((∃ e, collectInfo kurzWriteCommand modelSub snumSub swSub writeOk
        readResult {} = Except.error e) ↔
      (writeOk = false ∨ readResult = none)) ∧
    (∀ response,
      collectInfo vaisalaWriteCommand modelSub snumSub swSub true
        (some response) {} =
        Except.ok
          { sensorModel :=
              if (modelSub response).length > 1 then (modelSub response).getD 1 ""
              else "",
            sensorSerialNumber :=
              if (snumSub response).length > 1 then (snumSub response).getD 1 ""
              else "",
            sensorSoftwareVersion :=
              if (swSub response).length > 1 then (swSub response).getD 1 ""
              else "" }) ∧
    (∀ response,
      collectInfo kurzWriteCommand modelSub snumSub swSub true
        (some response) {} =
        Except.ok
          { sensorModel :=
              if (modelSub response).length > 1 then (modelSub response).getD 1 ""
              else "",
            sensorSerialNumber :=
              if (snumSub response).length > 1 then (snumSub response).getD 1 ""
              else "",
            sensorSoftwareVersion :=
              if (swSub response).length > 1 then (swSub response).getD 1 ""
              else "" }) :=
  ⟨collectInfo_error_iff vaisalaWriteCommand rfl ⟨_, rfl⟩ modelSub snumSub swSub
      writeOk readResult,
   collectInfo_error_iff kurzWriteCommand rfl ⟨_, rfl⟩ modelSub snumSub swSub
      writeOk readResult,
   fun response =>
     collectInfo_ok_fields vaisalaWriteCommand rfl modelSub snumSub swSub response,
   fun response =>
     collectInfo_ok_fields kurzWriteCommand rfl modelSub snumSub swSub response⟩

/-- C7 witness: an oracle whose model pattern captures `"GMP343"` sets the
model field, while the other two fields keep their empty defaults. -/
theorem collectInfo_spec_witness :
    collectInfo vaisalaWriteCommand (fun _ => ["Device : GMP343", "GMP343"])
      (fun _ => []) (fun _ => []) true (some "Device : GMP343") {} =
      Except.ok { sensorModel := "GMP343", sensorSerialNumber := "",
                  sensorSoftwareVersion := "" } := by
  have h := (collectInfo_spec (fun _ => ["Device : GMP343", "GMP343"])
    (fun _ => []) (fun _ => []) true (some "Device : GMP343")).2.2.1
    "Device : GMP343"
  rw [h]
  exact congrArg Except.ok (by decide)

theorem countReadAttempts_append (a b : List PollEvent) :
    countReadAttempts (a ++ b) = countReadAttempts a + countReadAttempts b := by
  induction a with
  | nil => simp [countReadAttempts]
  | cons x rest ih =>
    cases x <;> simp [countReadAttempts, ih, Nat.add_assoc]

/-- C8: in every run of the polling loop, every failed read is followed by
the fixed one-second sleep and the trace then continues with a retry of
the identical read operation; every sleep in the trace lasts exactly one
second (no backoff growth); every successful read is followed by a publish
of its value to the measurement channel; every outcome of the run is read
(one read attempt per outcome — no retry limit); and the loop state after
any run is still the sole running state `polling` (no terminal state). -/
theorem pollingLoop_spec :
    (∀ outs n, PollEvent.sleepSeconds n ∈ pollRun outs → n = 1) ∧
    (∀ outs1 e outs2,
      pollRun (outs1 ++ Except.error e :: outs2) =
        pollRun outs1 ++
          (PollEvent.readAttempt :: PollEvent.logError e ::
            PollEvent.sleepSeconds 1 :: pollRun outs2)) ∧
    (∀ outs1 v outs2,
      pollRun (outs1 ++ Except.ok v :: outs2) =
        pollRun outs1 ++
          (PollEvent.readAttempt :: PollEvent.publish v :: pollRun outs2)) ∧
    (∀ outs, outs ≠ [] → (pollRun outs).head? = some PollEvent.readAttempt) ∧
    (∀ outs, countReadAttempts (pollRun outs) = outs.length) ∧
    (∀ outs, pollState outs = LoopState.polling) := by
  refine ⟨?_, ?_, ?_, ?_, ?_, ?_⟩
  · intro outs n h
    induction outs with
    | nil => simp [pollRun] at h
    | cons o rest ih =>
      cases o with
      | error e =>
        simp [pollRun, pollIteration] at h
        rcases h with h | h
        · exact h
        · exact ih h
      | ok v =>
        simp [pollRun, pollIteration] at h
        exact ih h
  · intro outs1 e outs2
    rw [pollRun_append]
    rfl
  · intro outs1 v outs2
    rw [pollRun_append]
    rfl
  · intro outs h
    cases outs with
    | nil => exact absurd rfl h
    | cons o rest => cases o <;> rfl
  · intro outs
    induction outs with
    | nil => rfl
    | cons o rest ih =>
      cases o <;> simp [pollRun, pollIteration, countReadAttempts,
        countReadAttempts_append, ih] <;> omega
  · intro outs
    cases pollState outs
    rfl

/-- C8 witness: a failing read produces the sleep of exactly one second,
and a two-outcome run begins with a read attempt. -/
theorem pollingLoop_spec_witness :
    1 = 1 ∧
    (pollRun [Except.error (SensorError.connectionError "e"),
        Except.ok 1]).head? = some PollEvent.readAttempt :=
  ⟨pollingLoop_spec.1 [Except.error (SensorError.connectionError "e")] 1
      (by decide),
   pollingLoop_spec.2.2.2.1
      [Except.error (SensorError.connectionError "e"), Except.ok 1]
      (by simp)⟩

/-- C9: the three Kurz identification patterns contain no capture group,
so — under the Go regexp contract for `FindStringSubmatch` — after every
`collectSensorInfo` call, for every possible response line, the model,
serial-number and firmware-version fields remain at their empty-string
defaults, while the call still succeeds whenever the I/O succeeds (and
fails exactly when the I/O fails). -/
theorem kurzPatterns_noCapture (modelSub snumSub swSub : String → List String)
    (hm : SubmatchOracle kurzRegexSensorModel modelSub)
    (hs : SubmatchOracle kurzRegexSensorSerialNumber snumSub)
    (hw : SubmatchOracle kurzRegexSensorSoftwareVersion swSub) :
    numCaptureGroups kurzRegexSensorModel = 0 ∧
    numCaptureGroups kurzRegexSensorSerialNumber = 0 ∧
    numCaptureGroups kurzRegexSensorSoftwareVersion = 0 ∧
    (∀ writeOk readResult,
      (∃ e, collectInfo kurzWriteCommand modelSub snumSub swSub writeOk
          readResult {} = Except.error e) ↔
        (writeOk = false ∨ readResult = none)) ∧
    (∀ response,
      collectInfo kurzWriteCommand modelSub snumSub swSub true
        (some response) {} = Except.ok {}) := by
  refine ⟨by decide, by decide, by decide, ?_, ?_⟩
  · intro writeOk readResult
    exact collectInfo_error_iff kurzWriteCommand rfl ⟨_, rfl⟩ modelSub snumSub
      swSub writeOk readResult
  · intro response
    have h1 : ¬ (modelSub response).length > 1 := by
      rcases hm response with h | h <;>
        rw [h] <;>
          simp [show numCaptureGroups kurzRegexSensorModel = 0 from by decide]
    have h2 : ¬ (snumSub response).length > 1 := by
      rcases hs response with h | h <;>
        rw [h] <;>
          simp [show numCaptureGroups kurzRegexSensorSerialNumber = 0 from
            by decide]
    have h3 : ¬ (swSub response).length > 1 := by
      rcases hw response with h | h <;>
        rw [h] <;>
          simp [show numCaptureGroups kurzRegexSensorSoftwareVersion = 0 from
            by decide]
    rw [collectInfo_ok_fields kurzWriteCommand rfl modelSub snumSub swSub
      response, if_neg h1, if_neg h2, if_neg h3]

/-- C9 witness: concrete oracles obeying the Go regexp contract (a
whole-match-only slice for the model pattern, no match for the other two)
leave every field at its empty default on a concrete response. -/
theorem kurzPatterns_noCapture_witness :
    numCaptureGroups kurzRegexSensorModel = 0 ∧
    collectInfo kurzWriteCommand (fun _ => ["Device : FT100"]) (fun _ => [])
      (fun _ => []) true (some "Device : FT100") {} = Except.ok {} := by
  have h := kurzPatterns_noCapture (fun _ => ["Device : FT100"])
    (fun _ => []) (fun _ => [])
    (fun _ => Or.inr (show (["Device : FT100"] : List String).length =
      1 + numCaptureGroups kurzRegexSensorModel by decide))
    (fun _ => Or.inl rfl)
    (fun _ => Or.inl rfl)
  exact ⟨h.1, h.2.2.2.2 "Device : FT100"⟩

/-- C10: for every schedule of two concurrent read transactions against
one session (each transaction: acquire the session lock, write the
request, consume the response, release), the event trace on the shared
line is serialised — no transaction's request is ever written while
another transaction's response is still outstanding, i.e. the second
transaction's request never precedes the full consumption of the first
transaction's response. -/
theorem sessionLock_serializes (sched : List Bool) :
    serialized (runSched sched initialMutexConfig).2 = true := by
  have h := runSched_scan sched initialMutexConfig (by decide)
  have ho : openTx initialMutexConfig = none := rfl
  rw [ho] at h
  simp [serialized, h]
